import Mathlib

/-!
Shallow embedding of the order/checkout controller of an e-commerce backend
(cart → order conversion, pricing, stock bookkeeping, order lifecycle).

Money is modelled with exact rational arithmetic; rounding to two decimal
places (`toFixed(2)` in the source) is `round2`.  Database-generated
identifiers are modelled with a `nextId` counter on the store.  The
timestamp and the random draw used for order-number generation are explicit
arguments.
-/

namespace BackendOrders

/-- A catalog product, with the fields the order controller selects:
list price, optional sale price, integer stock and an active flag. -/
structure Product where
  id : Nat
  name : String
  price : Rat
  salePrice : Option Rat
  stock : Int
  isActive : Bool
deriving Repr, DecidableEq

/-- A cart line: one (user, product) pair with a positive quantity. -/
structure CartItem where
  userId : Nat
  productId : Nat
  quantity : Nat
deriving Repr, DecidableEq

/-- A shipping address owned by a user. -/
structure Address where
  id : Nat
  userId : Nat
  name : String
  phone : String
  street : String
  city : String
  state : String
  pincode : String
  country : String
  isDefault : Bool
deriving Repr, DecidableEq

/-- Order lifecycle states. -/
inductive OrderStatus where
  | PENDING
  | CONFIRMED
  | SHIPPED
  | DELIVERED
  | CANCELLED
deriving Repr, DecidableEq

/-- A persisted order with its price breakdown. -/
structure Order where
  id : Nat
  userId : Nat
  addressId : Nat
  orderNumber : String
  paymentMethod : String
  subtotal : Rat
  shippingCost : Rat
  tax : Rat
  total : Rat
  notes : Option String
  status : OrderStatus
  paymentStatus : String
deriving Repr, DecidableEq

/-- A line of an order: product, quantity, unit-price snapshot, line total. -/
structure OrderItem where
  orderId : Nat
  productId : Nat
  quantity : Nat
  price : Rat
  total : Rat
deriving Repr, DecidableEq

/-- The relational store the controller reads and writes. -/
structure DB where
  products : List Product
  cartItems : List CartItem
  addresses : List Address
  orders : List Order
  orderItems : List OrderItem
  nextId : Nat
deriving Repr, DecidableEq

/-- Business-rule failures surfaced by the controller. -/
inductive OrderError where
  | emptyCart
  | productUnavailable (name : String)
  | insufficientStock (name : String)
  | orderNotFound
  | invalidStateTransition
deriving Repr, DecidableEq

/-- Look a product up by id (`prisma.product` relation lookup). -/
def findProduct (db : DB) (pid : Nat) : Option Product :=
  db.products.find? (fun p => p.id == pid)

/-- The user's cart joined with each line's product
(`cartItem.findMany({where:{userId}, include:{product}})`). -/
def cartLines (db : DB) (userId : Nat) : List (CartItem × Product) :=
  db.cartItems.filterMap (fun c =>
    if c.userId == userId then (findProduct db c.productId).map (fun p => (c, p))
    else none)

/-- Unit price of a cart line: `item.product.salePrice || item.product.price`.
JavaScript `||` treats `0` and `null`/absent as falsy, so a zero sale price
falls back to the list price. -/
def effectivePrice (p : Product) : Rat :=
  match p.salePrice with
  | some s => if s = 0 then p.price else s
  | none => p.price

/-- The accumulation loop `subtotal += parseFloat(price) * item.quantity`. -/
def computeSubtotal (lines : List (CartItem × Product)) : Rat :=
  lines.foldl (fun acc l => acc + effectivePrice l.2 * (l.1.quantity : Rat)) 0

/-- `shippingCost = subtotal >= 999 ? 0 : 50`. -/
def shippingCostOf (subtotal : Rat) : Rat :=
  if subtotal ≥ 999 then 0 else 50

/-- `tax = subtotal * 0.18`. -/
def taxOf (subtotal : Rat) : Rat :=
  subtotal * (18 / 100)

/-- Rounding to two decimal places (`parseFloat(x.toFixed(2))`). -/
def round2 (x : Rat) : Rat :=
  ((round (x * 100) : Int) : Rat) / 100

/-- The order-number scheme
`ORD${Date.now()}${Math.floor(Math.random() * 1000)}`:
timestamp and a sub-1000 random suffix, concatenated as decimal strings. -/
def genOrderNumber (now rand : Nat) : String :=
  "ORD" ++ toString now ++ toString (rand % 1000)

/-- The validation loop over cart lines: the first inactive product reports
`Product <name> is no longer available`, the first under-stocked one
`Insufficient stock for <name>`. -/
def validateLines : List (CartItem × Product) → Option OrderError
  | [] => none
  | l :: rest =>
    if l.2.isActive = false then some (OrderError.productUnavailable l.2.name)
    else if l.2.stock < (l.1.quantity : Int) then
      some (OrderError.insufficientStock l.2.name)
    else validateLines rest

/-- `product.update({where:{id}, data:{stock:{decrement: qty}}})`. -/
def decrementStock (ps : List Product) (pid : Nat) (qty : Nat) : List Product :=
  ps.map (fun p => if p.id == pid then { p with stock := p.stock - (qty : Int) } else p)

/-- `product.update({where:{id}, data:{stock:{increment: qty}}})`. -/
def incrementStock (ps : List Product) (pid : Nat) (qty : Nat) : List Product :=
  ps.map (fun p => if p.id == pid then { p with stock := p.stock + (qty : Int) } else p)

/-- The hard-coded placeholder address the controller fabricates when the
supplied address id does not resolve. -/
def defaultAddress (userId : Nat) (id : Nat) : Address :=
  { id := id, userId := userId, name := "John Doe", phone := "9876543210",
    street := "123 Main Street, Apartment 4B", city := "Mumbai",
    state := "Maharashtra", pincode := "400001", country := "India",
    isDefault := true }

/-- The controller's address step: look the id up with
`address.findUnique({where:{id}})` (no ownership filter); when absent,
create `defaultAddress` and use its id. -/
def resolveAddress (db : DB) (userId addressId : Nat) : DB × Nat :=
  match db.addresses.find? (fun a => a.id == addressId) with
  | some _ => (db, addressId)
  | none =>
    ({ db with
        addresses := db.addresses ++ [defaultAddress userId db.nextId],
        nextId := db.nextId + 1 }, db.nextId)

/-- One `orderItem.create` row for a cart line: quantity and the unit-price
snapshot `salePrice || price`, line total `price * quantity`. -/
def mkOrderItem (orderId : Nat) (l : CartItem × Product) : OrderItem :=
  { orderId := orderId, productId := l.1.productId, quantity := l.1.quantity,
    price := effectivePrice l.2,
    total := effectivePrice l.2 * (l.1.quantity : Rat) }

/-- `createOrder`: load the cart, reject an empty cart, resolve (or
fabricate) the address, validate activity and stock per line, price the
cart, then atomically insert the order and its items, decrement each
line's product stock and delete the user's cart items.  Returns the store
after the call together with the outcome. -/
def createOrder (db : DB) (userId addressId : Nat) (paymentMethod : String)
    (notes : Option String) (now rand : Nat) : DB × Except OrderError Order :=
  let lines := cartLines db userId
  if lines.isEmpty then (db, Except.error OrderError.emptyCart)
  else
    let ra := resolveAddress db userId addressId
    match validateLines lines with
    | some e => (ra.1, Except.error e)
    | none =>
      let subtotal := computeSubtotal lines
      let shippingCost := shippingCostOf subtotal
      let tax := taxOf subtotal
      let total := subtotal + shippingCost + tax
      let newOrder : Order :=
        { id := ra.1.nextId, userId := userId, addressId := ra.2,
          orderNumber := genOrderNumber now rand, paymentMethod := paymentMethod,
          subtotal := round2 subtotal, shippingCost := round2 shippingCost,
          tax := round2 tax, total := round2 total, notes := notes,
          status := if paymentMethod = "COD" then OrderStatus.CONFIRMED
                    else OrderStatus.PENDING,
          paymentStatus := "PENDING" }
      let db2 : DB :=
        { ra.1 with
          orders := ra.1.orders ++ [newOrder],
          orderItems := ra.1.orderItems ++ lines.map (mkOrderItem newOrder.id),
          products := lines.foldl
            (fun ps l => decrementStock ps l.1.productId l.1.quantity) ra.1.products,
          cartItems := ra.1.cartItems.filter (fun c => !(c.userId == userId)),
          nextId := ra.1.nextId + 1 }
      (db2, Except.ok newOrder)

/-- The priced preview returned by `initiateCheckout` (`toFixed(2)` fields). -/
structure CheckoutData where
  subtotal : Rat
  shippingCost : Rat
  tax : Rat
  total : Rat
  paymentMethod : String
deriving Repr, DecidableEq

/-- `initiateCheckout`: read-only priced projection of the cart; rejects an
empty cart and otherwise prices the lines exactly as `createOrder` does. -/
def initiateCheckout (db : DB) (userId : Nat) (paymentMethod : String) :
    Except OrderError CheckoutData :=
  let lines := cartLines db userId
  if lines.isEmpty then Except.error OrderError.emptyCart
  else
    let subtotal := computeSubtotal lines
    let shippingCost := shippingCostOf subtotal
    let tax := taxOf subtotal
    Except.ok { subtotal := round2 subtotal, shippingCost := round2 shippingCost,
                tax := round2 tax,
                total := round2 (subtotal + shippingCost + tax),
                paymentMethod := paymentMethod }

/-- `getOrder`: `order.findFirst({where:{id, userId}})`, 404 when absent. -/
def getOrder (db : DB) (userId id : Nat) : Except OrderError Order :=
  match db.orders.find? (fun o => o.id == id && o.userId == userId) with
  | some o => Except.ok o
  | none => Except.error OrderError.orderNotFound

/-- The items belonging to one order (`include: { items: true }`). -/
def orderItemsOf (db : DB) (orderId : Nat) : List OrderItem :=
  db.orderItems.filter (fun i => i.orderId == orderId)

/-- `cancelOrder`: find the order scoped by owner; only `PENDING` and
`CONFIRMED` may be cancelled; on success set the status to `CANCELLED` and
restore each item's product stock in the same transaction. -/
def cancelOrder (db : DB) (userId id : Nat) : DB × Except OrderError Unit :=
  match db.orders.find? (fun o => o.id == id && o.userId == userId) with
  | none => (db, Except.error OrderError.orderNotFound)
  | some order =>
    if order.status = OrderStatus.PENDING ∨ order.status = OrderStatus.CONFIRMED then
      ({ db with
         orders := db.orders.map (fun o =>
           if o.id == id then { o with status := OrderStatus.CANCELLED } else o),
         products := (orderItemsOf db order.id).foldl
           (fun ps i => incrementStock ps i.productId i.quantity) db.products },
       Except.ok ())
    else (db, Except.error OrderError.invalidStateTransition)

/-- Total quantity the stock-decrement loop subtracts from product `pid`. -/
def qtySum (lines : List (CartItem × Product)) (pid : Nat) : Nat :=
  ((lines.filter (fun l => l.1.productId == pid)).map (fun l => l.1.quantity)).sum

/-- Total quantity the stock-restore loop adds back to product `pid`. -/
def itemQtySum (items : List OrderItem) (pid : Nat) : Nat :=
  ((items.filter (fun i => i.productId == pid)).map (fun i => i.quantity)).sum

/-- A rational amount that is exact in two decimal places (a whole number
of currency minor units), as database decimal price columns are. -/
def Exact2dp (x : Rat) : Prop := (x * 100).den = 1

instance (x : Rat) : Decidable (Exact2dp x) := by
  unfold Exact2dp
  infer_instance

/-- Sample store: one product with stock 2 while the cart asks for 3. -/
def c1Db : DB :=
  { products := [{ id := 1, name := "A", price := 100, salePrice := none,
                   stock := 2, isActive := true }],
    cartItems := [{ userId := 1, productId := 1, quantity := 3 }],
    addresses := [{ id := 9, userId := 1, name := "N", phone := "P", street := "S",
                    city := "C", state := "ST", pincode := "PC", country := "IN",
                    isDefault := true }],
    orders := [], orderItems := [], nextId := 30 }

/-- Sample store: a valid one-line cart (stock 5, quantity 2). -/
def c2Db : DB :=
  { products := [{ id := 1, name := "A", price := 100, salePrice := none,
                   stock := 5, isActive := true }],
    cartItems := [{ userId := 1, productId := 1, quantity := 2 }],
    addresses := [{ id := 9, userId := 1, name := "N", phone := "P", street := "S",
                    city := "C", state := "ST", pincode := "PC", country := "IN",
                    isDefault := true }],
    orders := [], orderItems := [], nextId := 30 }

/-- Sample store whose cart subtotal is 1000 (free-shipping side). -/
def c3Db1000 : DB :=
  { products := [{ id := 1, name := "A", price := 1000, salePrice := none,
                   stock := 10, isActive := true }],
    cartItems := [{ userId := 1, productId := 1, quantity := 1 }],
    addresses := [], orders := [], orderItems := [], nextId := 50 }

/-- Sample store whose cart subtotal is 500 (flat-50-shipping side). -/
def c3Db500 : DB :=
  { products := [{ id := 1, name := "A", price := 500, salePrice := none,
                   stock := 10, isActive := true }],
    cartItems := [{ userId := 1, productId := 1, quantity := 1 }],
    addresses := [], orders := [], orderItems := [], nextId := 50 }

/-- Sample store: a PENDING order for user 1 with one item of quantity 2. -/
def c4Db : DB :=
  { products := [{ id := 1, name := "A", price := 100, salePrice := none,
                   stock := 5, isActive := true }],
    cartItems := [], addresses := [],
    orders := [{ id := 11, userId := 1, addressId := 3, orderNumber := "ORDX",
                 paymentMethod := "COD", subtotal := 200, shippingCost := 50,
                 tax := 36, total := 286, notes := none,
                 status := OrderStatus.PENDING, paymentStatus := "PENDING" }],
    orderItems := [{ orderId := 11, productId := 1, quantity := 2,
                     price := 100, total := 200 }],
    nextId := 20 }

/-- The PENDING order stored in `c4Db`. -/
def c4Order : Order :=
  { id := 11, userId := 1, addressId := 3, orderNumber := "ORDX",
    paymentMethod := "COD", subtotal := 200, shippingCost := 50,
    tax := 36, total := 286, notes := none,
    status := OrderStatus.PENDING, paymentStatus := "PENDING" }

/-- Sample store with a valid cart but no address record at all. -/
def c5Db : DB :=
  { products := [{ id := 1, name := "A", price := 100, salePrice := none,
                   stock := 5, isActive := true }],
    cartItems := [{ userId := 1, productId := 1, quantity := 1 }],
    addresses := [], orders := [], orderItems := [], nextId := 7 }

/-- Sample store with two users' carts over the same product, so two orders
can be created back to back. -/
def c6Db : DB :=
  { products := [{ id := 1, name := "A", price := 100, salePrice := none,
                   stock := 9, isActive := true }],
    cartItems := [{ userId := 1, productId := 1, quantity := 1 },
                  { userId := 2, productId := 1, quantity := 1 }],
    addresses := [{ id := 9, userId := 1, name := "N", phone := "P", street := "S",
                    city := "C", state := "ST", pincode := "PC", country := "IN",
                    isDefault := true },
                  { id := 10, userId := 2, name := "M", phone := "P", street := "S",
                    city := "C", state := "ST", pincode := "PC", country := "IN",
                    isDefault := true }],
    orders := [], orderItems := [], nextId := 40 }

/-- Sample store with a two-line cart, one line priced 25.50. -/
def c7Db : DB :=
  { products := [{ id := 1, name := "A", price := 100, salePrice := none,
                   stock := 5, isActive := true },
                 { id := 2, name := "B", price := 2550 / 100, salePrice := none,
                   stock := 5, isActive := true }],
    cartItems := [{ userId := 1, productId := 1, quantity := 2 },
                  { userId := 1, productId := 2, quantity := 3 }],
    addresses := [{ id := 9, userId := 1, name := "N", phone := "P", street := "S",
                    city := "C", state := "ST", pincode := "PC", country := "IN",
                    isDefault := true }],
    orders := [], orderItems := [], nextId := 30 }

/-- Sample store holding one order owned by user 1. -/
def c8Db : DB :=
  { products := [], cartItems := [], addresses := [],
    orders := [{ id := 11, userId := 1, addressId := 3, orderNumber := "ORD1",
                 paymentMethod := "COD", subtotal := 100, shippingCost := 50,
                 tax := 18, total := 168, notes := none,
                 status := OrderStatus.PENDING, paymentStatus := "PENDING" }],
    orderItems := [], nextId := 20 }

/-- Sample store where user 1 has an empty cart (user 2 owns the only item). -/
def c9Db : DB :=
  { products := [{ id := 1, name := "A", price := 100, salePrice := none,
                   stock := 5, isActive := true }],
    cartItems := [{ userId := 2, productId := 1, quantity := 1 }],
    addresses := [], orders := [], orderItems := [], nextId := 7 }


lemma num_cast_of_den_eq_one {q : Rat} (h : q.den = 1) : ((q.num : Rat)) = q := by
  conv_rhs => rw [← Rat.num_div_den q]
  rw [h]
  simp

lemma exact2dp_iff {x : Rat} : Exact2dp x ↔ ∃ n : Int, x = (n : Rat) / 100 := by
  constructor
  · intro h
    refine ⟨(x * 100).num, ?_⟩
    rw [num_cast_of_den_eq_one h]
    rw [mul_div_cancel_right₀ x (by norm_num : (100 : Rat) ≠ 0)]
  · rintro ⟨n, rfl⟩
    unfold Exact2dp
    rw [div_mul_cancel₀ (n : Rat) (by norm_num : (100 : Rat) ≠ 0)]
    simp

lemma exact2dp_zero : Exact2dp 0 := by
  unfold Exact2dp
  norm_num

lemma exact2dp_add {x y : Rat} (hx : Exact2dp x) (hy : Exact2dp y) :
    Exact2dp (x + y) := by
  rcases exact2dp_iff.1 hx with ⟨n, rfl⟩
  rcases exact2dp_iff.1 hy with ⟨m, rfl⟩
  refine exact2dp_iff.2 ⟨n + m, ?_⟩
  push_cast
  ring

lemma exact2dp_natMul {x : Rat} (hx : Exact2dp x) (k : Nat) :
    Exact2dp (x * (k : Rat)) := by
  rcases exact2dp_iff.1 hx with ⟨n, rfl⟩
  refine exact2dp_iff.2 ⟨n * (k : Int), ?_⟩
  push_cast
  ring

lemma exact2dp_sum {L : List Rat} (h : ∀ x ∈ L, Exact2dp x) :
    Exact2dp L.sum := by
  induction L with
  | nil => simpa using exact2dp_zero
  | cons x xs ih =>
    rw [List.sum_cons]
    exact exact2dp_add (h x (by simp)) (ih (fun y hy => h y (by simp [hy])))

lemma round2_exact {x : Rat} (h : Exact2dp x) : round2 x = x := by
  rcases exact2dp_iff.1 h with ⟨n, rfl⟩
  unfold round2
  rw [div_mul_cancel₀ (n : Rat) (by norm_num : (100 : Rat) ≠ 0)]
  rw [round_intCast]

lemma round2_add_exact {a : Rat} (h : Exact2dp a) (x : Rat) :
    round2 (a + x) = a + round2 x := by
  rcases exact2dp_iff.1 h with ⟨n, rfl⟩
  unfold round2
  have h1 : ((n : Rat) / 100 + x) * 100 = (n : Rat) + x * 100 := by
    field_simp
  rw [h1, round_int_add]
  push_cast
  ring

lemma foldl_add_eq {α : Type} (f : α → Rat) (l : List α) (a : Rat) :
    l.foldl (fun acc x => acc + f x) a = a + (l.map f).sum := by
  induction l generalizing a with
  | nil => simp
  | cons x xs ih =>
    rw [List.foldl_cons, ih, List.map_cons, List.sum_cons]
    ring

lemma computeSubtotal_eq_sum (lines : List (CartItem × Product)) :
    computeSubtotal lines
      = (lines.map (fun l => effectivePrice l.2 * (l.1.quantity : Rat))).sum := by
  unfold computeSubtotal
  simpa using foldl_add_eq (fun l => effectivePrice l.2 * (l.1.quantity : Rat)) lines 0

lemma exact2dp_computeSubtotal {lines : List (CartItem × Product)}
    (h : ∀ l ∈ lines, Exact2dp (effectivePrice l.2)) :
    Exact2dp (computeSubtotal lines) := by
  rw [computeSubtotal_eq_sum]
  refine exact2dp_sum ?_
  intro x hx
  rcases List.mem_map.1 hx with ⟨l, hl, rfl⟩
  exact exact2dp_natMul (h l hl) l.1.quantity

lemma validateLines_eq_none_iff (lines : List (CartItem × Product)) :
    validateLines lines = none ↔
      ∀ l ∈ lines, l.2.isActive = true ∧ (l.1.quantity : Int) ≤ l.2.stock := by
  induction lines with
  | nil => simp [validateLines]
  | cons l ls ih =>
    unfold validateLines
    by_cases h1 : l.2.isActive = false
    · simp [h1]
    · rw [if_neg h1]
      by_cases h2 : l.2.stock < (l.1.quantity : Int)
      · simp [h2, not_le.2 h2]
      · simp [h2, ih, Bool.eq_true_of_not_eq_false h1, not_lt.1 h2]

lemma validateLines_some_shape {lines : List (CartItem × Product)} {e : OrderError}
    (h : validateLines lines = some e) :
    (∃ l ∈ lines, l.2.isActive = false ∧ e = OrderError.productUnavailable l.2.name) ∨
    (∃ l ∈ lines, l.2.stock < (l.1.quantity : Int) ∧ e = OrderError.insufficientStock l.2.name) := by
  induction lines with
  | nil => simp [validateLines] at h
  | cons l ls ih =>
    unfold validateLines at h
    by_cases h1 : l.2.isActive = false
    · rw [if_pos h1] at h
      left
      exact ⟨l, by simp, h1, by simpa using h.symm⟩
    · rw [if_neg h1] at h
      by_cases h2 : l.2.stock < (l.1.quantity : Int)
      · rw [if_pos h2] at h
        right
        exact ⟨l, by simp, h2, by simpa using h.symm⟩
      · rw [if_neg h2] at h
        rcases ih h with ⟨l', hl', hp⟩ | ⟨l', hl', hp⟩
        · exact Or.inl ⟨l', by simp [hl'], hp⟩
        · exact Or.inr ⟨l', by simp [hl'], hp⟩

lemma resolveAddress_preserves (db : DB) (u a : Nat) :
    (resolveAddress db u a).1.products = db.products ∧
    (resolveAddress db u a).1.cartItems = db.cartItems ∧
    (resolveAddress db u a).1.orders = db.orders ∧
    (resolveAddress db u a).1.orderItems = db.orderItems := by
  unfold resolveAddress
  split <;> simp

lemma resolveAddress_of_found {db : DB} {u a : Nat}
    (h : db.addresses.find? (fun x => x.id == a) ≠ none) :
    resolveAddress db u a = (db, a) := by
  unfold resolveAddress
  split
  · rfl
  · rename_i hnone
    exact absurd hnone h

lemma qtySum_cons (l : CartItem × Product) (ls : List (CartItem × Product)) (pid : Nat) :
    qtySum (l :: ls) pid
      = (if l.1.productId == pid then l.1.quantity else 0) + qtySum ls pid := by
  unfold qtySum
  by_cases h : l.1.productId == pid
  · simp [List.filter_cons, h]
  · simp [List.filter_cons, h]

lemma foldl_decrementStock (lines : List (CartItem × Product)) (ps : List Product) :
    lines.foldl (fun acc l => decrementStock acc l.1.productId l.1.quantity) ps
      = ps.map (fun p => { p with stock := p.stock - (qtySum lines p.id : Int) }) := by
  induction lines generalizing ps with
  | nil =>
    simp [qtySum]
  | cons l ls ih =>
    rw [List.foldl_cons, ih]
    unfold decrementStock
    rw [List.map_map]
    apply List.map_congr_left
    intro p _
    by_cases h : p.id == l.1.productId
    · simp [Function.comp, h, qtySum_cons, beq_iff_eq.1 h, sub_sub]
    · have h2 : ¬ (l.1.productId == p.id) := by
        intro hc
        exact h (by simpa [beq_iff_eq] using (beq_iff_eq.1 hc).symm)
      simp [Function.comp, h, qtySum_cons, h2]

lemma itemQtySum_cons (i : OrderItem) (is : List OrderItem) (pid : Nat) :
    itemQtySum (i :: is) pid
      = (if i.productId == pid then i.quantity else 0) + itemQtySum is pid := by
  unfold itemQtySum
  by_cases h : i.productId == pid
  · simp [List.filter_cons, h]
  · simp [List.filter_cons, h]

lemma foldl_incrementStock (items : List OrderItem) (ps : List Product) :
    items.foldl (fun acc i => incrementStock acc i.productId i.quantity) ps
      = ps.map (fun p => { p with stock := p.stock + (itemQtySum items p.id : Int) }) := by
  induction items generalizing ps with
  | nil =>
    simp [itemQtySum]
  | cons i is ih =>
    rw [List.foldl_cons, ih]
    unfold incrementStock
    rw [List.map_map]
    apply List.map_congr_left
    intro p _
    by_cases h : p.id == i.productId
    · simp [Function.comp, h, itemQtySum_cons, beq_iff_eq.1 h, add_assoc]
    · have h2 : ¬ (i.productId == p.id) := by
        intro hc
        exact h (by simpa [beq_iff_eq] using (beq_iff_eq.1 hc).symm)
      simp [Function.comp, h, itemQtySum_cons, h2]

lemma find?_map_id_preserving (ps : List Product) (pid : Nat) (f : Product → Product)
    (hf : ∀ p, (f p).id = p.id) :
    (ps.map f).find? (fun p => p.id == pid) = (ps.find? (fun p => p.id == pid)).map f := by
  rw [List.find?_map]
  have : ((fun p => p.id == pid) ∘ f) = fun p => p.id == pid := by
    funext p
    simp [Function.comp, hf]
  rw [this]

lemma mem_cartLines {db : DB} {userId : Nat} {l : CartItem × Product}
    (h : l ∈ cartLines db userId) :
    l.1 ∈ db.cartItems ∧ l.1.userId = userId ∧ findProduct db l.1.productId = some l.2 := by
  unfold cartLines at h
  rcases List.mem_filterMap.1 h with ⟨c, hc, hf⟩
  by_cases hu : c.userId == userId
  · rw [if_pos hu] at hf
    rcases Option.map_eq_some'.1 hf with ⟨p, hp, heq⟩
    cases heq
    exact ⟨hc, by simpa using hu, hp⟩
  · rw [if_neg hu] at hf
    cases hf

lemma filter_eq_single_of_nodup_keys {lines : List (CartItem × Product)}
    {l : CartItem × Product}
    (hmem : l ∈ lines)
    (hnodup : (lines.map (fun x => x.1.productId)).Nodup) :
    lines.filter (fun x => x.1.productId == l.1.productId) = [l] := by
  induction lines with
  | nil => cases hmem
  | cons a as ih =>
    rw [List.map_cons, List.nodup_cons] at hnodup
    rcases List.mem_cons.1 hmem with rfl | hmem'
    · rw [List.filter_cons_of_pos (by simp)]
      have : as.filter (fun x => x.1.productId == l.1.productId) = [] := by
        rw [List.filter_eq_nil_iff]
        intro x hx hbeq
        exact hnodup.1 (by
          refine List.mem_map.2 ⟨x, hx, ?_⟩
          exact (beq_iff_eq.1 hbeq))
      rw [this]
    · have hne : ¬ (a.1.productId == l.1.productId) := by
        intro hbeq
        exact hnodup.1 (by
          refine List.mem_map.2 ⟨l, hmem', ?_⟩
          exact (beq_iff_eq.1 hbeq).symm)
      rw [List.filter_cons_of_neg (by simpa using hne)]
      exact ih hmem' hnodup.2

lemma qtySum_of_nodup {lines : List (CartItem × Product)} {l : CartItem × Product}
    (hmem : l ∈ lines)
    (hnodup : (lines.map (fun x => x.1.productId)).Nodup) :
    qtySum lines l.1.productId = l.1.quantity := by
  unfold qtySum
  rw [filter_eq_single_of_nodup_keys hmem hnodup]
  simp

lemma filter_eq_single_of_nodup_item_keys {items : List OrderItem} {i : OrderItem}
    (hmem : i ∈ items)
    (hnodup : (items.map (fun x => x.productId)).Nodup) :
    items.filter (fun x => x.productId == i.productId) = [i] := by
  induction items with
  | nil => cases hmem
  | cons a as ih =>
    rw [List.map_cons, List.nodup_cons] at hnodup
    rcases List.mem_cons.1 hmem with rfl | hmem'
    · rw [List.filter_cons_of_pos (by simp)]
      have : as.filter (fun x => x.productId == i.productId) = [] := by
        rw [List.filter_eq_nil_iff]
        intro x hx hbeq
        exact hnodup.1 (List.mem_map.2 ⟨x, hx, beq_iff_eq.1 hbeq⟩)
      rw [this]
    · have hne : ¬ (a.productId == i.productId) := by
        intro hbeq
        exact hnodup.1 (List.mem_map.2 ⟨i, hmem', (beq_iff_eq.1 hbeq).symm⟩)
      rw [List.filter_cons_of_neg (by simpa using hne)]
      exact ih hmem' hnodup.2

lemma itemQtySum_of_nodup {items : List OrderItem} {i : OrderItem}
    (hmem : i ∈ items)
    (hnodup : (items.map (fun x => x.productId)).Nodup) :
    itemQtySum items i.productId = i.quantity := by
  unfold itemQtySum
  rw [filter_eq_single_of_nodup_item_keys hmem hnodup]
  simp

lemma cartLines_of_cleared {db : DB} {userId : Nat}
    (h : ∀ c ∈ db.cartItems, c.userId ≠ userId) :
    cartLines db userId = [] := by
  unfold cartLines
  rw [List.filterMap_eq_nil_iff]
  intro c hc
  rw [if_neg (by simpa using h c hc)]

lemma createOrder_valid_run
    (db : DB) (userId addressId : Nat) (pm : String) (notes : Option String)
    (now rand : Nat)
    (hne : cartLines db userId ≠ [])
    (hval : validateLines (cartLines db userId) = none) :
    createOrder db userId addressId pm notes now rand
      = ({ (resolveAddress db userId addressId).1 with
            orders := (resolveAddress db userId addressId).1.orders ++
              [{ id := (resolveAddress db userId addressId).1.nextId,
                 userId := userId,
                 addressId := (resolveAddress db userId addressId).2,
                 orderNumber := genOrderNumber now rand, paymentMethod := pm,
                 subtotal := round2 (computeSubtotal (cartLines db userId)),
                 shippingCost := round2 (shippingCostOf (computeSubtotal (cartLines db userId))),
                 tax := round2 (taxOf (computeSubtotal (cartLines db userId))),
                 total := round2 (computeSubtotal (cartLines db userId)
                   + shippingCostOf (computeSubtotal (cartLines db userId))
                   + taxOf (computeSubtotal (cartLines db userId))),
                 notes := notes,
                 status := if pm = "COD" then OrderStatus.CONFIRMED else OrderStatus.PENDING,
                 paymentStatus := "PENDING" }],
            orderItems := (resolveAddress db userId addressId).1.orderItems ++
              (cartLines db userId).map
                (mkOrderItem (resolveAddress db userId addressId).1.nextId),
            products := (cartLines db userId).foldl
              (fun ps l => decrementStock ps l.1.productId l.1.quantity)
              (resolveAddress db userId addressId).1.products,
            cartItems := (resolveAddress db userId addressId).1.cartItems.filter
              (fun c => !(c.userId == userId)),
            nextId := (resolveAddress db userId addressId).1.nextId + 1 },
         Except.ok
           { id := (resolveAddress db userId addressId).1.nextId,
             userId := userId,
             addressId := (resolveAddress db userId addressId).2,
             orderNumber := genOrderNumber now rand, paymentMethod := pm,
             subtotal := round2 (computeSubtotal (cartLines db userId)),
             shippingCost := round2 (shippingCostOf (computeSubtotal (cartLines db userId))),
             tax := round2 (taxOf (computeSubtotal (cartLines db userId))),
             total := round2 (computeSubtotal (cartLines db userId)
               + shippingCostOf (computeSubtotal (cartLines db userId))
               + taxOf (computeSubtotal (cartLines db userId))),
             notes := notes,
             status := if pm = "COD" then OrderStatus.CONFIRMED else OrderStatus.PENDING,
             paymentStatus := "PENDING" }) := by
  unfold createOrder
  dsimp only
  rw [if_neg (by simpa using hne), hval]

lemma createOrder_invalid_run
    (db : DB) (userId addressId : Nat) (pm : String) (notes : Option String)
    (now rand : Nat) (e : OrderError)
    (hne : cartLines db userId ≠ [])
    (hval : validateLines (cartLines db userId) = some e) :
    createOrder db userId addressId pm notes now rand
      = ((resolveAddress db userId addressId).1, Except.error e) := by
  unfold createOrder
  dsimp only
  rw [if_neg (by simpa using hne), hval]


lemma exact2dp_shippingCostOf (S : Rat) : Exact2dp (shippingCostOf S) := by
  unfold shippingCostOf Exact2dp
  split <;> norm_num

lemma round2_shippingCostOf (S : Rat) : round2 (shippingCostOf S) = shippingCostOf S :=
  round2_exact (exact2dp_shippingCostOf S)

lemma mem_cartLines_pid {db : DB} {userId : Nat} {l : CartItem × Product}
    (h : l ∈ cartLines db userId) : l.2.id = l.1.productId := by
  have h3 := (mem_cartLines h).2.2
  unfold findProduct at h3
  simpa using List.find?_some h3

lemma find?_orders_cancel_map (orders : List Order) (oid uid : Nat) :
    (orders.map (fun o =>
        if o.id == oid then { o with status := OrderStatus.CANCELLED } else o)).find?
        (fun o => o.id == oid && o.userId == uid)
      = (orders.find? (fun o => o.id == oid && o.userId == uid)).map
          (fun o => if o.id == oid then { o with status := OrderStatus.CANCELLED } else o) := by
  rw [List.find?_map]
  have hpred : ((fun o : Order => o.id == oid && o.userId == uid) ∘ fun o =>
      if o.id == oid then { o with status := OrderStatus.CANCELLED } else o)
      = fun o : Order => o.id == oid && o.userId == uid := by
    funext o
    by_cases h : o.id == oid <;> simp [Function.comp, h]
  rw [hpred]

lemma cancelOrder_not_cancellable {db : DB} {userId id : Nat} {order : Order}
    (hfind : db.orders.find? (fun o => o.id == id && o.userId == userId) = some order)
    (hstat : ¬ (order.status = OrderStatus.PENDING ∨ order.status = OrderStatus.CONFIRMED)) :
    cancelOrder db userId id = (db, Except.error OrderError.invalidStateTransition) := by
  unfold cancelOrder
  rw [hfind]
  dsimp only
  rw [if_neg hstat]



/-- C1: a createOrder call over a cart containing an inactive product or a
line whose quantity exceeds the product's stock fails with a
product-unavailable or insufficient-stock error naming a violating product,
and mutates nothing: orders, order items, product stocks and the cart are
all left unchanged. -/
theorem createOrder_validation_failure_no_mutation
    (db : DB) (userId addressId : Nat) (pm : String) (notes : Option String)
    (now rand : Nat)
    (hbad : ∃ l ∈ cartLines db userId,
      l.2.isActive = false ∨ l.2.stock < (l.1.quantity : Int)) :
    (∃ e : OrderError,
      (createOrder db userId addressId pm notes now rand).2 = Except.error e ∧
      ((∃ l ∈ cartLines db userId, l.2.isActive = false ∧
          e = OrderError.productUnavailable l.2.name) ∨
       (∃ l ∈ cartLines db userId, l.2.stock < (l.1.quantity : Int) ∧
          e = OrderError.insufficientStock l.2.name))) ∧
    (createOrder db userId addressId pm notes now rand).1.orders = db.orders ∧
    (createOrder db userId addressId pm notes now rand).1.orderItems = db.orderItems ∧
    (createOrder db userId addressId pm notes now rand).1.products = db.products ∧
    (createOrder db userId addressId pm notes now rand).1.cartItems = db.cartItems := by
  rcases hbad with ⟨l0, hl0, hviol⟩
  have hne : cartLines db userId ≠ [] := by
    intro h
    rw [h] at hl0
    cases hl0
  have hsome : ∃ e, validateLines (cartLines db userId) = some e := by
    rcases hv : validateLines (cartLines db userId) with _ | e
    · exfalso
      have hok := (validateLines_eq_none_iff _).1 hv l0 hl0
      rcases hviol with hviol | hviol
      · rw [hviol] at hok
        exact Bool.false_ne_true hok.1
      · exact absurd hok.2 (not_le.2 hviol)
    · exact ⟨e, rfl⟩
  rcases hsome with ⟨e, he⟩
  have hpres := resolveAddress_preserves db userId addressId
  rw [createOrder_invalid_run db userId addressId pm notes now rand e hne he]
  exact ⟨⟨e, rfl, validateLines_some_shape he⟩,
    hpres.2.2.1, hpres.2.2.2, hpres.1, hpres.2.1⟩

/-- Witness for C1 at `c1Db`: stock 2, requested quantity 3. -/
theorem createOrder_validation_failure_no_mutation_witness :
    (∃ e : OrderError,
      (createOrder c1Db 1 9 "COD" none 0 0).2 = Except.error e ∧
      ((∃ l ∈ cartLines c1Db 1, l.2.isActive = false ∧
          e = OrderError.productUnavailable l.2.name) ∨
       (∃ l ∈ cartLines c1Db 1, l.2.stock < (l.1.quantity : Int) ∧
          e = OrderError.insufficientStock l.2.name))) ∧
    (createOrder c1Db 1 9 "COD" none 0 0).1.orders = c1Db.orders ∧
    (createOrder c1Db 1 9 "COD" none 0 0).1.orderItems = c1Db.orderItems ∧
    (createOrder c1Db 1 9 "COD" none 0 0).1.products = c1Db.products ∧
    (createOrder c1Db 1 9 "COD" none 0 0).1.cartItems = c1Db.cartItems :=
  createOrder_validation_failure_no_mutation c1Db 1 9 "COD" none 0 0
    (by
      refine ⟨(({ userId := 1, productId := 1, quantity := 3 } : CartItem),
        ({ id := 1, name := "A", price := 100, salePrice := none,
           stock := 2, isActive := true } : Product)), ?_, ?_⟩
      · simp [cartLines, findProduct, c1Db]
      · right
        decide)

/-- C2: on a non-empty cart that passes validation, createOrder succeeds,
decrements each purchased product's stock by exactly that line's quantity,
appends one order item per cart line carrying the unit-price snapshot used
in pricing, and deletes every cart item of the user, leaving the cart
empty. -/
theorem createOrder_success_effects
    (db : DB) (userId addressId : Nat) (pm : String) (notes : Option String)
    (now rand : Nat)
    (hne : cartLines db userId ≠ [])
    (hval : validateLines (cartLines db userId) = none)
    (hnodup : ((cartLines db userId).map (fun l => l.1.productId)).Nodup) :
    ∃ o : Order,
      (createOrder db userId addressId pm notes now rand).2 = Except.ok o ∧
      (∀ l ∈ cartLines db userId,
        findProduct (createOrder db userId addressId pm notes now rand).1 l.1.productId
          = some { l.2 with stock := l.2.stock - (l.1.quantity : Int) }) ∧
      (createOrder db userId addressId pm notes now rand).1.orderItems
        = db.orderItems ++ (cartLines db userId).map (mkOrderItem o.id) ∧
      (∀ l ∈ cartLines db userId,
        (mkOrderItem o.id l).price = effectivePrice l.2 ∧
        (mkOrderItem o.id l).quantity = l.1.quantity) ∧
      (createOrder db userId addressId pm notes now rand).1.cartItems
        = db.cartItems.filter (fun c => !(c.userId == userId)) ∧
      cartLines (createOrder db userId addressId pm notes now rand).1 userId = [] := by
  have hpres := resolveAddress_preserves db userId addressId
  rw [createOrder_valid_run db userId addressId pm notes now rand hne hval]
  refine ⟨_, rfl, ?_, ?_, ?_, ?_, ?_⟩
  · intro l hl
    unfold findProduct
    dsimp only
    rw [hpres.1, foldl_decrementStock,
      find?_map_id_preserving db.products l.1.productId
        (fun p => { p with
          stock := p.stock - (qtySum (cartLines db userId) p.id : Int) })
        (fun p => rfl)]
    have hfp : findProduct db l.1.productId = some l.2 := (mem_cartLines hl).2.2
    unfold findProduct at hfp
    rw [hfp]
    have hpid : l.2.id = l.1.productId := mem_cartLines_pid hl
    simp only [Option.map_some']
    rw [hpid, qtySum_of_nodup hl hnodup]
  · dsimp only
    rw [hpres.2.2.2]
  · intro l hl
    exact ⟨rfl, rfl⟩
  · dsimp only
    rw [hpres.2.1]
  · apply cartLines_of_cleared
    intro c hc
    dsimp only at hc
    have := (List.mem_filter.1 hc).2
    simpa using this

/-- Witness for C2 at `c2Db`: stock goes from 5 to 3 and the cart empties. -/
theorem createOrder_success_effects_witness :
    ∃ o : Order, (createOrder c2Db 1 9 "COD" none 5 6).2 = Except.ok o ∧
      findProduct (createOrder c2Db 1 9 "COD" none 5 6).1 1
        = some { id := 1, name := "A", price := 100, salePrice := none,
                 stock := 3, isActive := true } ∧
      cartLines (createOrder c2Db 1 9 "COD" none 5 6).1 1 = [] := by
  rcases createOrder_success_effects c2Db 1 9 "COD" none 5 6
      (by simp [cartLines, findProduct, c2Db])
      (by rfl)
      (by simp [cartLines, findProduct, c2Db])
    with ⟨o, h1, h2, h3, h4, h5, h6⟩
  refine ⟨o, h1, ?_, h6⟩
  have hm : (({ userId := 1, productId := 1, quantity := 2 } : CartItem),
      ({ id := 1, name := "A", price := 100, salePrice := none,
         stock := 5, isActive := true } : Product)) ∈ cartLines c2Db 1 := by
    simp [cartLines, findProduct, c2Db]
  simpa using h2 _ hm

/-- C3: over two-decimal unit prices the checkout pricing returns
subtotal = Σ unitPrice·quantity (rounding to two decimals leaves it
unchanged), shipping 0 when the subtotal is at least 999 and a flat 50
otherwise, tax = subtotal·0.18 rounded to two decimals, and
total = subtotal + shipping + tax; in particular subtotal 1000 gives
shipping 0, tax 180, total 1180, and subtotal 500 gives shipping 50,
tax 90, total 640. -/
theorem pricing_formula
    (db : DB) (userId : Nat) (pm : String)
    (hne : cartLines db userId ≠ [])
    (hcent : ∀ l ∈ cartLines db userId, Exact2dp (effectivePrice l.2)) :
    (initiateCheckout db userId pm = Except.ok
      { subtotal := computeSubtotal (cartLines db userId),
        shippingCost := if computeSubtotal (cartLines db userId) ≥ 999 then 0 else 50,
        tax := round2 (computeSubtotal (cartLines db userId) * (18 / 100)),
        total := computeSubtotal (cartLines db userId)
          + (if computeSubtotal (cartLines db userId) ≥ 999 then 0 else 50)
          + round2 (computeSubtotal (cartLines db userId) * (18 / 100)),
        paymentMethod := pm } ∧
     computeSubtotal (cartLines db userId)
       = ((cartLines db userId).map
           (fun l => effectivePrice l.2 * (l.1.quantity : Rat))).sum) ∧
    initiateCheckout c3Db1000 1 pm = Except.ok
      { subtotal := 1000, shippingCost := 0, tax := 180, total := 1180,
        paymentMethod := pm } ∧
    initiateCheckout c3Db500 1 pm = Except.ok
      { subtotal := 500, shippingCost := 50, tax := 90, total := 640,
        paymentMethod := pm } := by
  have hS : Exact2dp (computeSubtotal (cartLines db userId)) :=
    exact2dp_computeSubtotal hcent
  refine ⟨⟨?_, computeSubtotal_eq_sum _⟩, ?_, ?_⟩
  · unfold initiateCheckout
    rw [if_neg (by simpa using hne)]
    dsimp only
    have htotal : round2 (computeSubtotal (cartLines db userId)
          + shippingCostOf (computeSubtotal (cartLines db userId))
          + taxOf (computeSubtotal (cartLines db userId)))
        = computeSubtotal (cartLines db userId)
          + shippingCostOf (computeSubtotal (cartLines db userId))
          + round2 (taxOf (computeSubtotal (cartLines db userId))) := by
      rw [add_assoc, round2_add_exact hS, round2_add_exact (exact2dp_shippingCostOf _),
        add_assoc]
    rw [htotal, round2_exact hS, round2_shippingCostOf]
    rfl
  · simp [initiateCheckout, cartLines, findProduct, c3Db1000, computeSubtotal,
      effectivePrice, shippingCostOf, taxOf, round2]
    norm_num [round_eq]
  · simp [initiateCheckout, cartLines, findProduct, c3Db500, computeSubtotal,
      effectivePrice, shippingCostOf, taxOf, round2]
    norm_num [round_eq]

/-- Witness for C3 at `c3Db1000`. -/
theorem pricing_formula_witness :
    initiateCheckout c3Db1000 1 "COD" = Except.ok
      { subtotal := 1000, shippingCost := 0, tax := 180, total := 1180,
        paymentMethod := "COD" } :=
  (pricing_formula c3Db1000 1 "COD"
    (by simp [cartLines, findProduct, c3Db1000])
    (by
      intro l hl
      simp [cartLines, findProduct, c3Db1000] at hl
      rw [hl]
      unfold effectivePrice Exact2dp
      norm_num)).2.1

/-- C4: cancelOrder on an order found for the calling user succeeds exactly
when its status is PENDING or CONFIRMED; on success it stores the order as
CANCELLED and increments each item's product stock by that item's quantity,
and a second cancellation of the same order fails with the
invalid-state-transition error and changes nothing, so stock is restored
exactly once; in any other status it fails with the same error and leaves
the store untouched. -/
theorem cancelOrder_state_machine
    (db : DB) (userId id : Nat) (order : Order)
    (hfind : db.orders.find? (fun o => o.id == id && o.userId == userId) = some order)
    (hnodup : ((orderItemsOf db order.id).map (fun i => i.productId)).Nodup) :
    ((order.status = OrderStatus.PENDING ∨ order.status = OrderStatus.CONFIRMED) →
      (cancelOrder db userId id).2 = Except.ok () ∧
      (cancelOrder db userId id).1.orders.find?
          (fun o => o.id == id && o.userId == userId)
        = some { order with status := OrderStatus.CANCELLED } ∧
      (∀ i ∈ orderItemsOf db order.id,
        findProduct (cancelOrder db userId id).1 i.productId
          = (findProduct db i.productId).map
              (fun p => { p with stock := p.stock + (i.quantity : Int) })) ∧
      cancelOrder (cancelOrder db userId id).1 userId id
        = ((cancelOrder db userId id).1,
           Except.error OrderError.invalidStateTransition)) ∧
    (¬ (order.status = OrderStatus.PENDING ∨ order.status = OrderStatus.CONFIRMED) →
      cancelOrder db userId id = (db, Except.error OrderError.invalidStateTransition)) := by
  have hid : order.id = id := by
    have := List.find?_some hfind
    simp only [Bool.and_eq_true, beq_iff_eq] at this
    exact this.1
  constructor
  · intro hstat
    have hrun : cancelOrder db userId id
        = ({ db with
              orders := db.orders.map (fun o =>
                if o.id == id then { o with status := OrderStatus.CANCELLED } else o),
              products := (orderItemsOf db order.id).foldl
                (fun ps i => incrementStock ps i.productId i.quantity) db.products },
           Except.ok ()) := by
      unfold cancelOrder
      rw [hfind]
      dsimp only
      rw [if_pos hstat]
    have hfind' : (cancelOrder db userId id).1.orders.find?
          (fun o => o.id == id && o.userId == userId)
        = some { order with status := OrderStatus.CANCELLED } := by
      rw [hrun]
      dsimp only
      rw [find?_orders_cancel_map, hfind]
      simp [hid]
    refine ⟨by rw [hrun], hfind', ?_, ?_⟩
    · intro i hi
      rw [hrun]
      unfold findProduct
      dsimp only
      rw [foldl_incrementStock,
        find?_map_id_preserving db.products i.productId
          (fun p => { p with
            stock := p.stock + (itemQtySum (orderItemsOf db order.id) p.id : Int) })
          (fun p => rfl)]
      rcases hfp : db.products.find? (fun p => p.id == i.productId) with _ | p
      · rw [hfp]
        rfl
      · rw [hfp]
        have hpid : p.id = i.productId := by
          simpa using List.find?_some hfp
        simp only [Option.map_some']
        rw [hpid, itemQtySum_of_nodup hi hnodup]
    · exact cancelOrder_not_cancellable hfind' (by simp)
  · intro hstat
    exact cancelOrder_not_cancellable hfind hstat

/-- Witness for C4 at `c4Db`: first cancellation succeeds, the second fails
with the invalid-state-transition error and changes nothing. -/
theorem cancelOrder_state_machine_witness :
    (cancelOrder c4Db 1 11).2 = Except.ok () ∧
    cancelOrder (cancelOrder c4Db 1 11).1 1 11
      = ((cancelOrder c4Db 1 11).1, Except.error OrderError.invalidStateTransition) := by
  rcases (cancelOrder_state_machine c4Db 1 11 c4Order
      (by rfl)
      (by simp [orderItemsOf, c4Db, c4Order])).1 (Or.inl rfl)
    with ⟨h1, _, _, h4⟩
  exact ⟨h1, h4⟩

/-- C5 (counter-evidence): createOrder called with an address id that
resolves to no record does not fail; it fabricates the hard-coded
placeholder address and creates the order against it. -/
theorem createOrder_fabricates_placeholder_address :
    c5Db.addresses.find? (fun a => a.id == 999) = none ∧
    (createOrder c5Db 1 999 "COD" none 0 0).1.addresses = [defaultAddress 1 7] ∧
    (createOrder c5Db 1 999 "COD" none 0 0).2 = Except.ok
      { id := 8, userId := 1, addressId := 7, orderNumber := "ORD00",
        paymentMethod := "COD", subtotal := 100, shippingCost := 50,
        tax := 18, total := 168, notes := none,
        status := OrderStatus.CONFIRMED, paymentStatus := "PENDING" } := by
  refine ⟨rfl, ?_, ?_⟩
  · simp [createOrder, cartLines, findProduct, resolveAddress, validateLines,
      c5Db, defaultAddress]
  · simp [createOrder, cartLines, findProduct, resolveAddress, validateLines,
      computeSubtotal, effectivePrice, shippingCostOf, taxOf, round2,
      genOrderNumber, c5Db]
    norm_num [round_eq]
    decide

/-- C6 (counter-evidence): two distinct orders created with timestamp 12 and
random draw 3, respectively timestamp 1 and draw 23, both receive the order
number ORD123: the timestamp-plus-random scheme is not unique. -/
theorem orderNumber_collision :
    ((createOrder c6Db 1 9 "COD" none 12 3).2.map (fun o => o.orderNumber)
        = Except.ok "ORD123" ∧
     (createOrder (createOrder c6Db 1 9 "COD" none 12 3).1 2 10 "COD" none 1 23).2.map
        (fun o => o.orderNumber) = Except.ok "ORD123") ∧
    (createOrder c6Db 1 9 "COD" none 12 3).2.map (fun o => o.id)
      ≠ (createOrder (createOrder c6Db 1 9 "COD" none 12 3).1 2 10 "COD" none 1 23).2.map
          (fun o => o.id) := by
  refine ⟨⟨?_, ?_⟩, ?_⟩
  · simp [createOrder, cartLines, findProduct, resolveAddress, validateLines,
      computeSubtotal, effectivePrice, shippingCostOf, taxOf, round2,
      genOrderNumber, decrementStock, mkOrderItem, Except.map, c6Db]
    decide
  · simp [createOrder, cartLines, findProduct, resolveAddress, validateLines,
      computeSubtotal, effectivePrice, shippingCostOf, taxOf, round2,
      genOrderNumber, decrementStock, mkOrderItem, Except.map, c6Db]
    decide
  · simp [createOrder, cartLines, findProduct, resolveAddress, validateLines,
      computeSubtotal, effectivePrice, shippingCostOf, taxOf, round2,
      genOrderNumber, decrementStock, mkOrderItem, Except.map, c6Db]

/-- C7: for an order createOrder materializes (existing address, passing
validation, fresh order id, two-decimal prices), the totals of the order
items belonging to it sum to the order's stored subtotal. -/
theorem order_subtotal_eq_items_total_sum
    (db : DB) (userId addressId : Nat) (pm : String) (notes : Option String)
    (now rand : Nat)
    (haddr : db.addresses.find? (fun a => a.id == addressId) ≠ none)
    (hne : cartLines db userId ≠ [])
    (hval : validateLines (cartLines db userId) = none)
    (hfresh : ∀ i ∈ db.orderItems, i.orderId ≠ db.nextId)
    (hcent : ∀ l ∈ cartLines db userId, Exact2dp (effectivePrice l.2)) :
    ∃ o : Order,
      (createOrder db userId addressId pm notes now rand).2 = Except.ok o ∧
      (((createOrder db userId addressId pm notes now rand).1.orderItems.filter
          (fun i => i.orderId == o.id)).map (fun i => i.total)).sum = o.subtotal := by
  rw [createOrder_valid_run db userId addressId pm notes now rand hne hval,
    resolveAddress_of_found haddr]
  refine ⟨_, rfl, ?_⟩
  dsimp only
  rw [List.filter_append]
  have hold : db.orderItems.filter (fun i => i.orderId == db.nextId) = [] := by
    rw [List.filter_eq_nil_iff]
    intro i hi hbeq
    exact hfresh i hi (beq_iff_eq.1 hbeq)
  have hnew : ((cartLines db userId).map (mkOrderItem db.nextId)).filter
      (fun i => i.orderId == db.nextId)
      = (cartLines db userId).map (mkOrderItem db.nextId) := by
    rw [List.filter_eq_self]
    intro i hi
    rcases List.mem_map.1 hi with ⟨l, _, rfl⟩
    simp [mkOrderItem]
  rw [hold, hnew, List.nil_append, List.map_map]
  have hcomp : ((fun i : OrderItem => i.total) ∘ mkOrderItem db.nextId)
      = fun l : CartItem × Product => effectivePrice l.2 * (l.1.quantity : Rat) := by
    funext l
    simp [mkOrderItem]
  rw [hcomp, ← computeSubtotal_eq_sum]
  exact (round2_exact (exact2dp_computeSubtotal hcent)).symm

/-- Witness for C7 at `c7Db` (prices 100 and 25.50). -/
theorem order_subtotal_eq_items_total_sum_witness :
    ∃ o : Order,
      (createOrder c7Db 1 9 "COD" none 0 0).2 = Except.ok o ∧
      (((createOrder c7Db 1 9 "COD" none 0 0).1.orderItems.filter
          (fun i => i.orderId == o.id)).map (fun i => i.total)).sum = o.subtotal :=
  order_subtotal_eq_items_total_sum c7Db 1 9 "COD" none 0 0
    (by simp [c7Db])
    (by simp [cartLines, findProduct, c7Db])
    (by rfl)
    (by simp [c7Db])
    (by
      intro l hl
      simp [cartLines, findProduct, c7Db] at hl
      rcases hl with hl | hl <;>
        rw [hl] <;> unfold effectivePrice Exact2dp <;> norm_num)

/-- C8: getOrder is scoped by ownership: when every order carrying the
requested id belongs to a different user, the caller receives the
order-not-found error; and any order it does return has the requested id
and belongs to the caller. -/
theorem getOrder_scoped_by_ownership (db : DB) (callerId id : Nat) :
    ((∀ o ∈ db.orders, o.id = id → o.userId ≠ callerId) →
      getOrder db callerId id = Except.error OrderError.orderNotFound) ∧
    (∀ o : Order, getOrder db callerId id = Except.ok o →
      o ∈ db.orders ∧ o.id = id ∧ o.userId = callerId) := by
  unfold getOrder
  constructor
  · intro h
    have hnone : db.orders.find? (fun o => o.id == id && o.userId == callerId) = none := by
      rw [List.find?_eq_none]
      intro o ho
      simp only [Bool.and_eq_true, beq_iff_eq]
      rintro ⟨h1, h2⟩
      exact h o ho h1 h2
    rw [hnone]
  · intro o h
    rcases hfind : db.orders.find? (fun o => o.id == id && o.userId == callerId) with _ | o'
    · rw [hfind] at h
      cases h
    · rw [hfind] at h
      cases h
      have hp := List.find?_some hfind
      simp only [Bool.and_eq_true, beq_iff_eq] at hp
      exact ⟨List.mem_of_find?_eq_some hfind, hp.1, hp.2⟩

/-- Witness for C8 at `c8Db`: user 2 asking for user 1's order 11 gets the
order-not-found error. -/
theorem getOrder_scoped_by_ownership_witness :
    getOrder c8Db 2 11 = Except.error OrderError.orderNotFound :=
  (getOrder_scoped_by_ownership c8Db 2 11).1 (by
    intro o ho h1
    simp [c8Db] at ho
    rw [ho]
    decide)

/-- C9: with an empty cart, createOrder fails with the empty-cart error and
returns the store completely unchanged (no order, order item, stock,
address or cart mutation), and the checkout preview fails the same way. -/
theorem emptyCart_rejected_without_mutation
    (db : DB) (userId addressId : Nat) (pm : String) (notes : Option String)
    (now rand : Nat) (h : cartLines db userId = []) :
    createOrder db userId addressId pm notes now rand
        = (db, Except.error OrderError.emptyCart) ∧
    initiateCheckout db userId pm = Except.error OrderError.emptyCart := by
  constructor
  · unfold createOrder
    rw [h]
    rfl
  · unfold initiateCheckout
    rw [h]
    rfl

/-- Witness for C9 at `c9Db`: user 1 has no cart items. -/
theorem emptyCart_rejected_without_mutation_witness :
    createOrder c9Db 1 4 "COD" none 0 0 = (c9Db, Except.error OrderError.emptyCart) ∧
    initiateCheckout c9Db 1 "COD" = Except.error OrderError.emptyCart :=
  emptyCart_rejected_without_mutation c9Db 1 4 "COD" none 0 0
    (by simp [cartLines, c9Db])

/-- C10: a sale price of zero or no sale price at all makes the list price
the unit price used by the subtotal accumulation, the checkout preview and
the order-item snapshot, and a nonzero sale price is the one applied. -/
theorem salePrice_zero_or_absent_uses_list_price (p : Product)
    (h : p.salePrice = some 0 ∨ p.salePrice = none) :
    effectivePrice p = p.price ∧
    (∀ c : CartItem, computeSubtotal [(c, p)] = p.price * (c.quantity : Rat)) ∧
    (∀ (oid : Nat) (c : CartItem), (mkOrderItem oid (c, p)).price = p.price) ∧
    (∀ (q : Product) (s : Rat), q.salePrice = some s → s ≠ 0 → effectivePrice q = s) := by
  have heff : effectivePrice p = p.price := by
    rcases h with h | h <;> simp [effectivePrice, h]
  refine ⟨heff, ?_, ?_, ?_⟩
  · intro c
    simp [computeSubtotal, heff]
  · intro oid c
    simp [mkOrderItem, heff]
  · intro q s hq hs
    simp [effectivePrice, hq, hs]

/-- Witness for C10 at a product with list price 120 and sale price 0. -/
theorem salePrice_zero_or_absent_uses_list_price_witness :
    effectivePrice { id := 1, name := "A", price := 120, salePrice := some 0,
                     stock := 5, isActive := true } = 120 :=
  (salePrice_zero_or_absent_uses_list_price _ (Or.inl rfl)).1

end BackendOrders
